import Mathlib

/-!
# A verification model of the cNVMe controller command-processing engine

This file gives a shallow embedding of `src/cNVMe/Controller.cpp`
(`cnvme::controller::Controller`): the doorbell observer `checkForChanges`,
the command processor `processCommandAndPostCompletion`, the completion
producer `postCompletion`, the command-identifier validator
`isValidCommandIdentifier`, and the reset path `controllerResetCallback`.

Modelling conventions:
* Machine integers (`UINT_16`, `UINT_32`, `UINT_64`) are `Nat`; no arithmetic
  in the modelled code overflows (indices stay below slot counts, 16-bit CIDs
  below 65536), so no explicit `% 2^w` is needed except where the source
  wraps ring cursors with `%`.
* `std::map` values are association lists (`List (Nat × α)`), `std::set` is
  `Finset Nat` (duplicate-freeness of `std::set` is inherent in `Finset`).
* Side effects that leave the engine state (logging of error conditions,
  the `assert(0)` calls, the bytes memcpy'd into a completion-queue slot,
  the completion doorbell store, and the PRP payload placement) are recorded
  as an `Effect` trace.  `LOG_INFO` calls that report no error condition are
  not modelled.
* The host-written inputs read during one tick (controller registers,
  submission-queue tail doorbells, the 64-byte commands in submission-queue
  memory) are a read-only environment `Env`; the source reads them afresh
  from emulated host memory and never writes them in the modelled code.
-/

/-- `ADMIN_QUEUE_ID` from Controller.cpp line 7. -/
def ADMIN_QUEUE_ID : Nat := 0

/-- Modelled from the spec: `MAX_COMMAND_IDENTIFIER` (`MAX_CID`) lives in
Constants.h which is not under src/; §4.3 fixes it to 65536 (the 16-bit CID
space). -/
def MAX_COMMAND_IDENTIFIER : Nat := 65536

/-- Modelled from the spec: `constants::opcodes::admin::IDENTIFY`; §8
scenario 2 fixes the Identify opcode to 0x06. -/
def OPCODE_IDENTIFY : Nat := 0x06

/-- Modelled from the spec: `constants::opcodes::admin::KEEP_ALIVE` is in
Constants.h which is not under src/; only its value being distinct from
`OPCODE_IDENTIFY` matters here (0x18 is the NVMe Keep Alive opcode). -/
def OPCODE_KEEP_ALIVE : Nat := 0x18

/-- Modelled from the spec: `constants::status::codes::generic::COMMAND_ID_CONFLICT`
is in Constants.h which is not under src/; the claims compare against the
symbol only (0x03 is the NVMe status code). -/
def COMMAND_ID_CONFLICT : Nat := 0x03

/-- The fields of the 64-byte `NVME_COMMAND` that Controller.cpp reads:
opcode and CID from DWord0, and the two data pointers. -/
structure NVME_COMMAND where
  OPC : Nat
  CID : Nat
  DPTR1 : Nat
  DPTR2 : Nat
  deriving DecidableEq, Repr

/-- The fields of the 16-byte `COMPLETION_QUEUE_ENTRY` that Controller.cpp
writes: SQ head snapshot, SQ id, echoed CID, phase tag, status code and
do-not-retry.  The one-bit fields P and DNR are `Bool`. -/
structure COMPLETION_QUEUE_ENTRY where
  SQID : Nat := 0
  SQHD : Nat := 0
  CID : Nat := 0
  P : Bool := false
  SC : Nat := 0
  DNR : Bool := false
  deriving DecidableEq, Repr

/-- The all-zero completion entry `{ 0 }` used by the source. -/
def zeroCQE : COMPLETION_QUEUE_ENTRY := {}

/-- Modelled from the spec (§3, §4.1): the `Queue` class (Queue.cpp is not
under src/; only Controller.cpp's use of it is).  A ring with a slot count,
a 16-bit id, a base address in host memory and internal head/tail cursors.
The source's `paired_queue` raw pointer is modelled as the paired queue's id
(`mappedQueueId`), resolved by lookup in the opposite registry; in every
state Controller.cpp builds, ids are unique within a registry, so lookup by
id denotes the same queue the pointer does. -/
structure Queue where
  slotCount : Nat
  queueId : Nat
  memoryAddress : Nat
  head : Nat := 0
  tail : Nat := 0
  mappedQueueId : Option Nat := none
  deriving DecidableEq, Repr

/-- Modelled from the spec (§4.1): `set_tail_pointer` returns false and leaves
the queue unchanged if the new tail is not below the slot count, else updates
the internal tail. -/
def setTailPointer (q : Queue) (t : Nat) : Bool × Queue :=
  if q.slotCount ≤ t then (false, q) else (true, { q with tail := t })

/-- Modelled from the spec (§4.1): `advance_head_toward_tail` / the source's
`incrementAndGetHeadCloserToTail`: increments head with wrap at the slot
count; idempotent at `head == tail`. -/
def incrementAndGetHeadCloserToTail (q : Queue) : Queue :=
  if q.head = q.tail then q else { q with head := (q.head + 1) % q.slotCount }

/-- Modelled from the spec (§4.1): `queue_memory_size` is slot count times
slot size; completion-queue slots are 16 bytes. -/
def cqQueueMemorySize (q : Queue) : Nat := q.slotCount * 16

/-- Association-list lookup, modelling `std::map::find`. -/
def mapLookup {α : Type} (m : List (Nat × α)) (k : Nat) : Option α :=
  match m with
  | [] => none
  | (k', v) :: rest => if k' = k then some v else mapLookup rest k

/-- Association-list store, modelling `std::map::operator[] =`: replace the
binding if the key is present, else append it. -/
def mapSet {α : Type} (m : List (Nat × α)) (k : Nat) (v : α) : List (Nat × α) :=
  match m with
  | [] => [(k, v)]
  | (k', v') :: rest => if k' = k then (k, v) :: rest else (k', v') :: mapSet rest k v

/-- `Controller::getQueueWithId`: the first queue in the registry carrying
the id (the source returns a pointer to it, or logs and returns null). -/
def getQueueWithId (queues : List Queue) (id : Nat) : Option Queue :=
  queues.find? (fun q => q.queueId == id)

/-- Write a queue value back into the registry slot holding its id,
modelling mutation through the reference/pointer the source holds.  If no
slot carries the id the registry is unchanged (the source's pointer always
aliases an existing element). -/
def updateQueueWithId (queues : List Queue) (q : Queue) : List Queue :=
  match queues with
  | [] => []
  | x :: xs => if x.queueId = q.queueId then q :: xs else x :: updateQueueWithId xs q

/-- `q.getMappedQueue()` resolved against the opposite registry. -/
def getMappedQueue (others : List Queue) (q : Queue) : Option Queue :=
  match q.mappedQueueId with
  | none => none
  | some i => getQueueWithId others i

/-- The mutable engine state owned by `Controller`: the two queue
registries, the per-SQ outstanding-CID sets and the per-SQ phase tags. -/
structure CtrlState where
  validSubmissionQueues : List Queue := []
  validCompletionQueues : List Queue := []
  sqidToCids : List (Nat × Finset Nat) := []
  queueToPhaseTag : List (Nat × Bool) := []
  deriving DecidableEq

/-- The host-side inputs one `checkForChanges` tick reads.  Modelled from the
spec (§6): the Controller Registers block and the doorbell array are
collaborators not under src/.  `cmdMem a i` is the 64-byte command at slot
`i` of the submission ring based at host address `a`. -/
structure Env where
  RDY : Nat
  ASQB : Nat
  ACQB : Nat
  ASQS : Nat
  ACQS : Nat
  memoryPageSize : Nat
  dbSQT : Nat → Nat
  cmdMem : Nat → Nat → NVME_COMMAND

/-- The observable side effects of the engine, in program order. -/
inductive Effect where
  /-- `LOG_ERROR` at Controller.cpp line 149: SQ has no mapped CQ. -/
  | logNoMappedCompletionQueue (sqid : Nat)
  /-- `LOG_ERROR` at line 127: host-advanced tail was rejected. -/
  | logInvalidTailPointer (sqid : Nat)
  /-- `LOG_ERROR` at line 175: memory page size read as zero. -/
  | logMemoryPageSizeZero
  /-- An `assert(0)` / failed `ASSERT_IF` fired (fatal in debug builds). -/
  | assertFailed
  /-- The source would dereference a null queue pointer here. -/
  | nullDeref
  /-- The 16-byte completion entry memcpy'd to slot `slot` of the CQ ring
  based at `addr` (line 273). -/
  | postCqe (addr slot : Nat) (entry : COMPLETION_QUEUE_ENTRY)
  /-- The completion doorbell store (line 280): the CQ's post-increment head. -/
  | ringCompletionDoorbell (qid newHead : Nat)
  /-- The Identify payload placed through the PRPs (lines 190-194); the first
  two payload bytes are recorded.  Modelled from the spec (§4.2): the PRP
  resolver is a collaborator not under src/. -/
  | prpWrite (dptr1 dptr2 byte0 byte1 : Nat)
  deriving DecidableEq, Repr

/-- `Controller::isValidCommandIdentifier` (Controller.cpp lines 283-312).
Returns the `bool` result and the updated `SubmissionQueueIdToCommandIdentifiers`
map.  Note the source clears a saturated set *before* the duplicate check. -/
def isValidCommandIdentifier (m : List (Nat × Finset Nat)) (commandId submissionQueueId : Nat) :
    Bool × List (Nat × Finset Nat) :=
  match mapLookup m submissionQueueId with
  | none =>
      -- SQID hasn't been used yet: store the singleton, return true.
      (true, mapSet m submissionQueueId {commandId})
  | some s =>
      -- The source mutates the stored set through a reference: a saturated
      -- set is cleared in place, then the membership check runs on the
      -- (possibly cleared) set.
      let s' := if s.card = MAX_COMMAND_IDENTIFIER then (∅ : Finset Nat) else s
      if commandId ∈ s' then (false, mapSet m submissionQueueId s')
      else (true, mapSet m submissionQueueId (insert commandId s'))

/-- `Controller::postCompletion` (lines 235-281).  `cq` is the value of the
completion queue the source holds by reference; the updated value is written
back into the registry.  The paired submission queue is read through the
CQ's mapped-queue pointer (the source does not null-check it). -/
def postCompletion (st : CtrlState) (cq : Queue) (completionEntry : COMPLETION_QUEUE_ENTRY)
    (command : NVME_COMMAND) : CtrlState × List Effect :=
  match getMappedQueue st.validSubmissionQueues cq with
  | none => (st, [Effect.nullDeref])
  | some submissionQueue =>
      let entry := { completionEntry with
        SQID := submissionQueue.queueId
        SQHD := submissionQueue.head
        CID := command.CID }
      -- Phase tag: default-insert false for an unseen SQ id, flip the stored
      -- bit when the CQ head is 0, then read the stored bit into the entry.
      let pt0 := match mapLookup st.queueToPhaseTag submissionQueue.queueId with
        | none => mapSet st.queueToPhaseTag submissionQueue.queueId false
        | some _ => st.queueToPhaseTag
      let pt1 := if cq.head = 0 then
          mapSet pt0 submissionQueue.queueId (!((mapLookup pt0 submissionQueue.queueId).getD false))
        else pt0
      let phaseTag := (mapLookup pt1 submissionQueue.queueId).getD false
      let entry := { entry with P := phaseTag }
      -- Remaining-bytes assertion before the memcpy (lines 270-273).
      let remaining := cqQueueMemorySize cq - cq.head * 16
      let assertEffs := if remaining < 16 then [Effect.assertFailed] else []
      let postEff := Effect.postCqe cq.memoryAddress cq.head entry
      let cq' := incrementAndGetHeadCloserToTail cq
      let st' := { st with
        validCompletionQueues := updateQueueWithId st.validCompletionQueues cq'
        queueToPhaseTag := pt1 }
      (st', assertEffs ++ [postEff, Effect.ringCompletionDoorbell cq'.queueId cq'.head])

/-- `Controller::processCommandAndPostCompletion` (lines 144-219).  `sq` is
the value of the submission queue the source holds by reference; this
function never changes the SQ itself (the caller advances its head). -/
def processCommandAndPostCompletion (env : Env) (st : CtrlState) (sq : Queue) :
    CtrlState × List Effect :=
  match getMappedQueue st.validCompletionQueues sq with
  | none => (st, [Effect.logNoMappedCompletionQueue sq.queueId])
  | some theCompletionQueue =>
      let command := env.cmdMem sq.memoryAddress sq.head
      let validCid := isValidCommandIdentifier st.sqidToCids command.CID sq.queueId
      let st1 := { st with sqidToCids := validCid.2 }
      if validCid.1 = false then
        -- Post SC = Command ID Conflict, DNR = 1 and do not process.
        let cqe := { zeroCQE with SC := COMMAND_ID_CONFLICT, DNR := true }
        postCompletion st1 theCompletionQueue cqe command
      else if env.memoryPageSize = 0 then
        (st1, [Effect.logMemoryPageSizeZero])
      else if sq.queueId = ADMIN_QUEUE_ID then
        if command.OPC = OPCODE_IDENTIFY then
          -- Identify: place the payload (first two bytes 0x01, 0xFF)
          -- through the PRPs, then post the zeroed completion.
          let post := postCompletion st1 theCompletionQueue zeroCQE command
          (post.1, Effect.prpWrite command.DPTR1 command.DPTR2 1 0xff :: post.2)
        else if command.OPC = OPCODE_KEEP_ALIVE then
          postCompletion st1 theCompletionQueue zeroCQE command
        else
          -- Unknown admin opcode: assert(0), then post the *zeroed* entry.
          let post := postCompletion st1 theCompletionQueue zeroCQE command
          (post.1, Effect.assertFailed :: post.2)
      else
        -- NVM command: assert(0); no completion is posted.
        (st1, [Effect.assertFailed])

/-- Write an updated submission-queue value back into the registry, keeping
the registry in sync with the reference the drain loop mutates through. -/
def writebackSQ (st : CtrlState) (sq : Queue) : CtrlState :=
  { st with validSubmissionQueues := updateQueueWithId st.validSubmissionQueues sq }

/-- The body of the drain `while` loop (Controller.cpp lines 135-139),
unrolled a given number of times: while `head ≠ tail`, process the command at
`head` and advance the head toward the tail.  The fuel argument is
discharged by `drainLoop`, which supplies the exact iteration count of the
source's loop; `drainLoop_eq` below proves the result satisfies the
`while` loop's defining equations on the domain the source maintains
(cursors below the slot count). -/
def drainN (env : Env) : Nat → CtrlState → Queue → CtrlState × Queue × List Effect
  | 0, st, sq => (st, sq, [])
  | n + 1, st, sq =>
      if sq.head = sq.tail then (st, sq, [])
      else
        let step := processCommandAndPostCompletion env st sq
        let sq' := incrementAndGetHeadCloserToTail sq
        let st2 := writebackSQ step.1 sq'
        let rest := drainN env n st2 sq'
        (rest.1, rest.2.1, step.2 ++ rest.2.2)

/-- The number of slots from `head` forward to `tail` on a ring of
`slotCount` slots: the exact number of iterations of the drain loop. -/
def ringDistance (head tail slotCount : Nat) : Nat :=
  (tail + slotCount - head) % slotCount

/-- The drain `while` loop (lines 135-139) for one submission queue. -/
def drainLoop (env : Env) (st : CtrlState) (sq : Queue) : CtrlState × Queue × List Effect :=
  drainN env (ringDistance sq.head sq.tail sq.slotCount) st sq

/-- One iteration of the round-robin `for` loop over
`ValidSubmissionQueues` (lines 121-141), acting on the queue at position
`i`: compare the SQ tail doorbell with the internal tail; on a change,
accept the new tail (logging and skipping the queue when it is rejected),
propagate it into the mapped completion queue, and drain. -/
def drainIdx (env : Env) (st : CtrlState) (i : Nat) : CtrlState × List Effect :=
  match st.validSubmissionQueues[i]? with
  | none => (st, [])
  | some sq =>
      if env.dbSQT sq.queueId = sq.tail then (st, [])
      else
        let setRes := setTailPointer sq (env.dbSQT sq.queueId)
        if setRes.1 = false then (st, [Effect.logInvalidTailPointer sq.queueId])
        else
          let sq1 := setRes.2
          -- sq.getMappedQueue()->setTailPointer(...): the source dereferences
          -- the mapped-queue pointer without a null check.
          match getMappedQueue st.validCompletionQueues sq1 with
          | none => (st, [Effect.nullDeref])
          | some cq =>
              let cq1 := (setTailPointer cq sq1.tail).2  -- result ignored by the source
              let st1 := { writebackSQ st sq1 with
                validCompletionQueues := updateQueueWithId st.validCompletionQueues cq1 }
              let res := drainLoop env st1 sq1
              (res.1, res.2.2)

/-- The round-robin pass over all submission queues, by position.  The drain
never adds or removes registry entries, so iterating positions of the entry
list matches the source's iteration of the vector. -/
def drainAll (env : Env) (st : CtrlState) : CtrlState × List Effect :=
  (List.range st.validSubmissionQueues.length).foldl
    (fun acc i =>
      let step := drainIdx env acc.1 i
      (step.1, acc.2 ++ step.2))
    (st, [])

/-- Admin submission-queue materialization (lines 83-93): construct the
admin SQ on first sight of a nonzero ASQB, otherwise rebase the existing
admin SQ to the current ASQB. -/
def materializeAdminSQ (env : Env) (st : CtrlState) : CtrlState × List Effect :=
  if st.validSubmissionQueues = [] then
    ({ st with validSubmissionQueues :=
        [{ slotCount := env.ASQS + 1, queueId := ADMIN_QUEUE_ID, memoryAddress := env.ASQB }] },
     [])
  else
    match getQueueWithId st.validSubmissionQueues ADMIN_QUEUE_ID with
    | none => (st, [Effect.assertFailed])
    | some adminQueue =>
        (writebackSQ st { adminQueue with memoryAddress := env.ASQB }, [])

/-- Admin completion-queue materialization (lines 101-117): construct the
admin CQ on first sight of a nonzero ACQB and cross-link it with the admin
SQ, otherwise rebase the existing admin CQ to the current ACQB.  The
source's `&ValidSubmissionQueues[0]` / `&ValidCompletionQueues[0]` pointers
are modelled as mapped queue id 0 (the admin pair). -/
def materializeAdminCQ (env : Env) (st : CtrlState) : CtrlState × List Effect :=
  if st.validCompletionQueues = [] then
    let acq : Queue :=
      { slotCount := env.ACQS + 1
        queueId := ADMIN_QUEUE_ID
        memoryAddress := env.ACQB
        mappedQueueId := some ADMIN_QUEUE_ID }
    let st1 := { st with validCompletionQueues := st.validCompletionQueues ++ [acq] }
    match getQueueWithId st1.validSubmissionQueues ADMIN_QUEUE_ID with
    | none => (st1, [Effect.assertFailed])
    | some adminSubQ =>
        (writebackSQ st1 { adminSubQ with mappedQueueId := some ADMIN_QUEUE_ID }, [])
  else
    match getQueueWithId st.validCompletionQueues ADMIN_QUEUE_ID with
    | none => (st, [Effect.assertFailed])
    | some adminQueue =>
        ({ st with validCompletionQueues :=
            updateQueueWithId st.validCompletionQueues { adminQueue with memoryAddress := env.ACQB } },
         [])

/-- `Controller::checkForChanges` (lines 66-142): the readiness gate, the
admin queue materialization, and the round-robin drain. -/
def checkForChanges (env : Env) (st : CtrlState) : CtrlState × List Effect :=
  if env.RDY = 0 then (st, [])
  else if env.ASQB = 0 then (st, [])
  else
    let m1 := materializeAdminSQ env st
    if env.ACQB = 0 then m1
    else
      let m2 := materializeAdminCQ env m1.1
      let d := drainAll env m2.1
      (d.1, m1.2 ++ m2.2 ++ d.2)

/-- `Controller::controllerResetCallback` (lines 314-339): erase every
non-admin entry from both registries (the source's back-to-front erase
loop removes exactly the non-admin entries, preserving the relative order
of the rest, i.e. it filters the vector), then clear the CID map and the
phase-tag map. -/
def controllerResetCallback (st : CtrlState) : CtrlState :=
  { validSubmissionQueues :=
      st.validSubmissionQueues.filter (fun q => q.queueId == ADMIN_QUEUE_ID)
    validCompletionQueues :=
      st.validCompletionQueues.filter (fun q => q.queueId == ADMIN_QUEUE_ID)
    sqidToCids := []
    queueToPhaseTag := [] }

/-- Harness: iterate `postCompletion` on the completion queue with id
`cqId`, posting the zeroed entry for the same command each time (the queue
value is re-read from the registry between posts, as the source's reference
aliases it). -/
def postN (cqId : Nat) (command : NVME_COMMAND) : Nat → CtrlState → CtrlState × List Effect
  | 0, st => (st, [])
  | n + 1, st =>
      match getQueueWithId st.validCompletionQueues cqId with
      | none => (st, [])
      | some cq =>
          let step := postCompletion st cq zeroCQE command
          let rest := postN cqId command n step.1
          (rest.1, step.2 ++ rest.2)

/-- The SQHD fields of the completion entries in an effect trace, in order. -/
def postedSQHDs (effs : List Effect) : List Nat :=
  effs.filterMap (fun e => match e with
    | Effect.postCqe _ _ entry => some entry.SQHD
    | _ => none)

/-- The completion entries posted in an effect trace, in order. -/
def postedEntries (effs : List Effect) : List COMPLETION_QUEUE_ENTRY :=
  effs.filterMap (fun e => match e with
    | Effect.postCqe _ _ entry => some entry
    | _ => none)

/-- Whether a trace contains any PRP payload placement (command-body
execution touching host memory through the PRPs). -/
def hasPrpWrite (effs : List Effect) : Bool :=
  effs.any (fun e => match e with
    | Effect.prpWrite _ _ _ _ => true
    | _ => false)

/-- Whether a trace contains a posted completion entry. -/
def hasPostCqe (effs : List Effect) : Bool :=
  effs.any (fun e => match e with
    | Effect.postCqe _ _ _ => true
    | _ => false)

/-! ## Basic lemmas about the map and registry operations -/

theorem mapLookup_mapSet_self {α : Type} (m : List (Nat × α)) (k : Nat) (v : α) :
    mapLookup (mapSet m k v) k = some v := by
  induction m with
  | nil => simp [mapSet, mapLookup]
  | cons kv rest ih =>
      obtain ⟨k', v'⟩ := kv
      by_cases h : k' = k
      · simp [mapSet, mapLookup, h]
      · simp [mapSet, mapLookup, h, ih]

theorem mapLookup_mapSet_ne {α : Type} (m : List (Nat × α)) (k k' : Nat) (v : α)
    (h : k' ≠ k) : mapLookup (mapSet m k v) k' = mapLookup m k' := by
  induction m with
  | nil => simp [mapSet, mapLookup, if_neg (Ne.symm h)]
  | cons kv rest ih =>
      obtain ⟨k0, v0⟩ := kv
      by_cases h0 : k0 = k
      · subst h0
        simp [mapSet, mapLookup, if_neg (Ne.symm h)]
      · simp [mapSet, mapLookup, h0, ih]

theorem getQueueWithId_eq_id {queues : List Queue} {id : Nat} {q : Queue}
    (h : getQueueWithId queues id = some q) : q.queueId = id := by
  have := List.find?_some h
  simpa using this

theorem getQueueWithId_mem {queues : List Queue} {id : Nat} {q : Queue}
    (h : getQueueWithId queues id = some q) : q ∈ queues :=
  List.mem_of_find?_eq_some h

theorem updateQueueWithId_self {queues : List Queue} {q : Queue}
    (h : getQueueWithId queues q.queueId = some q) : updateQueueWithId queues q = queues := by
  induction queues with
  | nil => simp [getQueueWithId] at h
  | cons x xs ih =>
      by_cases hx : x.queueId = q.queueId
      · have : x = q := by
          simp only [getQueueWithId, List.find?] at h
          rw [show (x.queueId == q.queueId) = true by simpa using hx] at h
          simpa using h
        simp [updateQueueWithId, hx, this]
      · have hfind : getQueueWithId xs q.queueId = some q := by
          simp only [getQueueWithId, List.find?] at h ⊢
          rw [show (x.queueId == q.queueId) = false by simpa using hx] at h
          exact h
        simp [updateQueueWithId, hx, ih hfind]

theorem getQueueWithId_update {queues : List Queue} {q0 q : Queue}
    (h : getQueueWithId queues q.queueId = some q0) :
    getQueueWithId (updateQueueWithId queues q) q.queueId = some q := by
  induction queues with
  | nil => simp [getQueueWithId] at h
  | cons x xs ih =>
      by_cases hx : x.queueId = q.queueId
      · simp [updateQueueWithId, hx, getQueueWithId, List.find?]
      · have hfind : getQueueWithId xs q.queueId = some q0 := by
          simp only [getQueueWithId, List.find?] at h ⊢
          rw [show (x.queueId == q.queueId) = false by simpa using hx] at h
          exact h
        simp only [updateQueueWithId, if_neg hx, getQueueWithId, List.find?]
        rw [show (x.queueId == q.queueId) = false by simpa using hx]
        exact ih hfind

/-! ## Ring-distance lemmas: the drain `while` loop's iteration count -/

theorem ring_sub_mod (t x sc : Nat) (hx : x < sc) (ht : t < sc) :
    (t + sc - x) % sc = if x ≤ t then t - x else t + sc - x := by
  by_cases hle : x ≤ t
  · have e : t + sc - x = (t - x) + sc := by omega
    rw [if_pos hle, e, Nat.add_mod_right, Nat.mod_eq_of_lt (by omega)]
  · rw [if_neg hle, Nat.mod_eq_of_lt (by omega)]

theorem ringDistance_eq_zero {h t sc : Nat} (hh : h < sc) (ht : t < sc) :
    ringDistance h t sc = 0 ↔ h = t := by
  rw [ringDistance, ring_sub_mod t h sc hh ht]
  split_ifs <;> omega

theorem ringDistance_succ {h t sc : Nat} (hh : h < sc) (ht : t < sc) (hne : h ≠ t) :
    ringDistance h t sc = ringDistance ((h + 1) % sc) t sc + 1 := by
  by_cases h1 : h + 1 = sc
  · have e : (h + 1) % sc = 0 := by rw [h1, Nat.mod_self]
    rw [ringDistance, ringDistance, e, ring_sub_mod t h sc hh ht,
      ring_sub_mod t 0 sc (by omega) ht]
    split_ifs <;> omega
  · have e : (h + 1) % sc = h + 1 := Nat.mod_eq_of_lt (by omega)
    rw [ringDistance, ringDistance, e, ring_sub_mod t h sc hh ht,
      ring_sub_mod t (h + 1) sc (by omega) ht]
    split_ifs <;> omega

/-- The fuel `drainLoop` passes to `drainN` is exact: on the domain the
source maintains (both cursors below the slot count) `drainLoop` satisfies
the defining equations of the `while (head != tail)` loop of
Controller.cpp lines 135-139. -/
theorem drainLoop_eq (env : Env) (st : CtrlState) (sq : Queue)
    (hh : sq.head < sq.slotCount) (ht : sq.tail < sq.slotCount) :
    drainLoop env st sq =
      if sq.head = sq.tail then (st, sq, [])
      else
        let step := processCommandAndPostCompletion env st sq
        let sq' := incrementAndGetHeadCloserToTail sq
        let rest := drainLoop env (writebackSQ step.1 sq') sq'
        (rest.1, rest.2.1, step.2 ++ rest.2.2) := by
  by_cases he : sq.head = sq.tail
  · rw [drainLoop, (ringDistance_eq_zero hh ht).mpr he]
    simp [drainN, he]
  · rw [drainLoop, ringDistance_succ hh ht he]
    simp only [drainN, if_neg he]
    simp [drainLoop, incrementAndGetHeadCloserToTail, he]

/-- With exact fuel, the drain loop leaves the submission queue with its
head advanced all the way to the tail (every pending command consumed),
and every other cursor and attribute unchanged. -/
theorem drainN_queue (env : Env) :
    ∀ (n : Nat) (st : CtrlState) (sq : Queue), sq.head < sq.slotCount →
      sq.tail < sq.slotCount → ringDistance sq.head sq.tail sq.slotCount ≤ n →
      (drainN env n st sq).2.1 = { sq with head := sq.tail } := by
  intro n
  induction n with
  | zero =>
      intro st sq hh ht hle
      have h0 : ringDistance sq.head sq.tail sq.slotCount = 0 := by omega
      have he : sq.head = sq.tail := (ringDistance_eq_zero hh ht).mp h0
      obtain ⟨a, b, c, d, e, f⟩ := sq
      simp only at he
      simp [drainN, he]
  | succ n ih =>
      intro st sq hh ht hle
      by_cases he : sq.head = sq.tail
      · obtain ⟨a, b, c, d, e, f⟩ := sq
        simp only at he
        simp [drainN, he]
      · have hsc : 0 < sq.slotCount := by omega
        have hd : ringDistance ((sq.head + 1) % sq.slotCount) sq.tail sq.slotCount ≤ n := by
          have := ringDistance_succ hh ht he
          omega
        simp only [drainN, if_neg he]
        have := ih (writebackSQ (processCommandAndPostCompletion env st sq).1
            (incrementAndGetHeadCloserToTail sq)) (incrementAndGetHeadCloserToTail sq)
          (by simp [incrementAndGetHeadCloserToTail, he]; exact Nat.mod_lt _ hsc)
          (by simpa [incrementAndGetHeadCloserToTail, he] using ht)
          (by simpa [incrementAndGetHeadCloserToTail, he] using hd)
        simp only [incrementAndGetHeadCloserToTail, if_neg he] at this ⊢
        rw [this]

theorem drainLoop_queue (env : Env) (st : CtrlState) (sq : Queue)
    (hh : sq.head < sq.slotCount) (ht : sq.tail < sq.slotCount) :
    (drainLoop env st sq).2.1 = { sq with head := sq.tail } :=
  drainN_queue env _ st sq hh ht (Nat.le_refl _)

/-! ## Characterizing one `postCompletion` call -/

theorem postedEntries_append (l1 l2 : List Effect) :
    postedEntries (l1 ++ l2) = postedEntries l1 ++ postedEntries l2 :=
  List.filterMap_append l1 l2 _

theorem postedEntries_assert (c : Prop) [Decidable c] :
    postedEntries (if c then [Effect.assertFailed] else []) = [] := by
  split_ifs <;> simp [postedEntries]

theorem hasPrpWrite_append (l1 l2 : List Effect) :
    hasPrpWrite (l1 ++ l2) = (hasPrpWrite l1 || hasPrpWrite l2) :=
  List.any_append

/-- The phase-tag value `postCompletion` stores and stamps into the entry:
the previously stored tag (defaulting to false), toggled exactly when the
completion queue's head is 0 at entry. -/
def postPhase (st : CtrlState) (cq : Queue) (sqid : Nat) : Bool :=
  if cq.head = 0 then !((mapLookup st.queueToPhaseTag sqid).getD false)
  else (mapLookup st.queueToPhaseTag sqid).getD false

/-- What one `postCompletion` call does, given that the completion queue's
mapped submission queue resolves to `psq`: the submission-queue registry and
the CID map are untouched; the completion queue's head is advanced in the
registry; the stored phase tag for `psq`'s id becomes `postPhase` (toggled
exactly when `cq.head = 0`); exactly one entry is posted, carrying the
paired queue's id and current head, the command's CID and the post-toggle
phase tag; no PRP write happens; and if the CQ head is in range the
remaining-memory assertion does not fire. -/
theorem postCompletion_spec (st : CtrlState) (cq : Queue) (entry : COMPLETION_QUEUE_ENTRY)
    (cmd : NVME_COMMAND) (psq : Queue)
    (hpsq : getMappedQueue st.validSubmissionQueues cq = some psq) :
    (postCompletion st cq entry cmd).1.validSubmissionQueues = st.validSubmissionQueues ∧
    (postCompletion st cq entry cmd).1.sqidToCids = st.sqidToCids ∧
    (postCompletion st cq entry cmd).1.validCompletionQueues =
      updateQueueWithId st.validCompletionQueues (incrementAndGetHeadCloserToTail cq) ∧
    mapLookup (postCompletion st cq entry cmd).1.queueToPhaseTag psq.queueId =
      some (postPhase st cq psq.queueId) ∧
    postedEntries (postCompletion st cq entry cmd).2 =
      [{ entry with
          SQID := psq.queueId
          SQHD := psq.head
          CID := cmd.CID
          P := postPhase st cq psq.queueId }] ∧
    hasPrpWrite (postCompletion st cq entry cmd).2 = false ∧
    (cq.head < cq.slotCount → Effect.assertFailed ∉ (postCompletion st cq entry cmd).2) := by
  have hassert : cq.head < cq.slotCount →
      ¬(cqQueueMemorySize cq - cq.head * 16 < 16) := by
    intro hlt
    rw [cqQueueMemorySize]
    omega
  cases hlk : mapLookup st.queueToPhaseTag psq.queueId with
  | none =>
      by_cases hz : cq.head = 0 <;>
        simp [postCompletion, hpsq, hlk, hz, postPhase, postedEntries_append,
          postedEntries_assert, hasPrpWrite_append, postedEntries, hasPrpWrite,
          mapLookup_mapSet_self, hassert] <;>
        (intro h; rw [cqQueueMemorySize]; omega)
  | some b =>
      by_cases hz : cq.head = 0 <;>
        simp [postCompletion, hpsq, hlk, hz, postPhase, postedEntries_append,
          postedEntries_assert, hasPrpWrite_append, postedEntries, hasPrpWrite,
          mapLookup_mapSet_self, hassert] <;>
        (intro h; rw [cqQueueMemorySize]; omega)

/-! ## C1: the command-identifier validator on an already-seen SQ id -/

/-- Shared helper: on a saturated set the source clears first, so the call
returns true and the stored set becomes the singleton of the new CID. -/
theorem isValidCid_saturated (m : List (Nat × Finset Nat)) (cid sqid : Nat) (s : Finset Nat)
    (hs : mapLookup m sqid = some s) (hcard : s.card = MAX_COMMAND_IDENTIFIER) :
    (isValidCommandIdentifier m cid sqid).1 = true ∧
    mapLookup (isValidCommandIdentifier m cid sqid).2 sqid = some ({cid} : Finset Nat) := by
  simp [isValidCommandIdentifier, hs, hcard, mapLookup_mapSet_self]

/-- C1 (amended): on an already-seen sqid the *saturation check precedes the
duplicate check*: a set of cardinality 65536 is cleared first; then, if the
(possibly cleared) set contains `cid` the call returns false and the set is
unchanged, otherwise `cid` is inserted and the call returns true.  The
stored collection is a set (duplicate-free by construction); when every
stored CID and the incoming CID are 16-bit values its cardinality never
exceeds 65536; and after reaching 65536 the next call returns true and the
cardinality drops to 1 — even for a CID that was in the set. -/
theorem C1_cid_validator (m : List (Nat × Finset Nat)) (cid sqid : Nat) (s : Finset Nat)
    (hs : mapLookup m sqid = some s) :
    (s.card ≠ MAX_COMMAND_IDENTIFIER → cid ∈ s →
        (isValidCommandIdentifier m cid sqid).1 = false ∧
        mapLookup (isValidCommandIdentifier m cid sqid).2 sqid = some s) ∧
    (s.card ≠ MAX_COMMAND_IDENTIFIER → cid ∉ s →
        (isValidCommandIdentifier m cid sqid).1 = true ∧
        mapLookup (isValidCommandIdentifier m cid sqid).2 sqid = some (insert cid s)) ∧
    (s.card = MAX_COMMAND_IDENTIFIER →
        (isValidCommandIdentifier m cid sqid).1 = true ∧
        mapLookup (isValidCommandIdentifier m cid sqid).2 sqid = some ({cid} : Finset Nat)) ∧
    (s ⊆ Finset.range MAX_COMMAND_IDENTIFIER → cid < MAX_COMMAND_IDENTIFIER →
        ∀ t, mapLookup (isValidCommandIdentifier m cid sqid).2 sqid = some t →
          t.card ≤ MAX_COMMAND_IDENTIFIER) := by
  refine ⟨?_, ?_, ?_, ?_⟩
  · intro hcard hmem
    simp [isValidCommandIdentifier, hs, hcard, hmem, mapLookup_mapSet_self]
  · intro hcard hmem
    simp [isValidCommandIdentifier, hs, hcard, hmem, mapLookup_mapSet_self]
  · intro hcard
    exact isValidCid_saturated m cid sqid s hs hcard
  · intro hsub hcid t ht
    by_cases hcard : s.card = MAX_COMMAND_IDENTIFIER
    · rw [(isValidCid_saturated m cid sqid s hs hcard).2] at ht
      cases ht
      simp [MAX_COMMAND_IDENTIFIER]
    · by_cases hmem : cid ∈ s
      · have := hs
        simp [isValidCommandIdentifier, hs, hcard, hmem, mapLookup_mapSet_self] at ht
        subst ht
        calc s.card ≤ (Finset.range MAX_COMMAND_IDENTIFIER).card := Finset.card_le_card hsub
          _ = MAX_COMMAND_IDENTIFIER := Finset.card_range _
      · simp [isValidCommandIdentifier, hs, hcard, hmem, mapLookup_mapSet_self] at ht
        subst ht
        have hsub' : insert cid s ⊆ Finset.range MAX_COMMAND_IDENTIFIER :=
          Finset.insert_subset (Finset.mem_range.mpr hcid) hsub
        calc (insert cid s).card ≤ (Finset.range MAX_COMMAND_IDENTIFIER).card :=
              Finset.card_le_card hsub'
          _ = MAX_COMMAND_IDENTIFIER := Finset.card_range _

/-- C1 counterexample: with the outstanding set for SQ 0 saturated (it then
holds every 16-bit CID, in particular 5), the claim's ordering demands the
call return false on CID 5; the source clears the set first and returns
true, with the cardinality dropping to 1. -/
theorem C1_counterexample :
    (5 : Nat) ∈ Finset.range 65536 ∧
    (isValidCommandIdentifier [(0, Finset.range 65536)] 5 0).1 = true ∧
    (mapLookup (isValidCommandIdentifier [(0, Finset.range 65536)] 5 0).2 0).map Finset.card
      = some 1 := by
  refine ⟨by simp, ?_, ?_⟩
  · exact (isValidCid_saturated [(0, Finset.range 65536)] 5 0 (Finset.range 65536) rfl
      (Finset.card_range 65536)).1
  · rw [(isValidCid_saturated [(0, Finset.range 65536)] 5 0 (Finset.range 65536) rfl
      (Finset.card_range 65536)).2]
    simp

/-- C1 witness: a concrete unsaturated call. -/
theorem C1_witness :
    (2 : Nat) ∉ ({1} : Finset Nat) ∧
    (isValidCommandIdentifier [(0, ({1} : Finset Nat))] 2 0).1 = true ∧
    mapLookup (isValidCommandIdentifier [(0, ({1} : Finset Nat))] 2 0).2 0 =
      some (insert 2 ({1} : Finset Nat)) := by
  have h := (C1_cid_validator [(0, ({1} : Finset Nat))] 2 0 {1} rfl).2.1
    (by decide) (by decide)
  exact ⟨by decide, h.1, h.2⟩

/-! ## C2: unknown admin opcode -/

/-- A bring-up environment whose single admin command carries an opcode that
is neither `IDENTIFY` nor `KEEP_ALIVE` (opcode 0). -/
def envC2 : Env :=
  { RDY := 1, ASQB := 0x1000, ACQB := 0x2000, ASQS := 15, ACQS := 15,
    memoryPageSize := 4096, dbSQT := fun _ => 1,
    cmdMem := fun _ _ => { OPC := 0, CID := 1, DPTR1 := 0, DPTR2 := 0 } }

/-- C2: what the code actually does on an unknown admin opcode: the
`assert(0)` at Controller.cpp line 209 fires, and the completion that is
posted is the *zeroed* entry — status code 0 (success), DNR 0 — not an
Invalid Command Opcode error with DNR=1 as the claim states.  (The source's
own comment, "Need to return invalid command opcode", records the intent the
code does not implement.) -/
theorem C2_unknown_admin_opcode :
    (checkForChanges envC2 {}).2 =
      [Effect.assertFailed,
       Effect.postCqe 0x2000 0 { SQID := 0, SQHD := 0, CID := 1, P := true, SC := 0, DNR := false },
       Effect.ringCompletionDoorbell 0 1] := by
  decide

/-! ## C3: the SQHD snapshot in posted completions -/

theorem postedSQHDs_eq (l : List Effect) :
    postedSQHDs l = (postedEntries l).map (fun e => e.SQHD) := by
  induction l with
  | nil => rfl
  | cons e rest ih =>
      cases e <;> simpa [postedSQHDs, postedEntries, List.filterMap_cons] using ih

theorem postedSQHDs_postCompletion (st : CtrlState) (cq : Queue)
    (entry : COMPLETION_QUEUE_ENTRY) (cmd : NVME_COMMAND) (psq : Queue)
    (hpsq : getMappedQueue st.validSubmissionQueues cq = some psq) :
    postedSQHDs (postCompletion st cq entry cmd).2 = [psq.head] := by
  obtain ⟨-, -, -, -, hpost, -, -⟩ := postCompletion_spec st cq entry cmd psq hpsq
  rw [postedSQHDs_eq, hpost]
  rfl

theorem postedSQHDs_cons_prp (d1 d2 b0 b1 : Nat) (l : List Effect) :
    postedSQHDs (Effect.prpWrite d1 d2 b0 b1 :: l) = postedSQHDs l := rfl

theorem postedSQHDs_cons_assert (l : List Effect) :
    postedSQHDs (Effect.assertFailed :: l) = postedSQHDs l := rfl

/-- Every completion `processCommandAndPostCompletion` posts carries
SQHD = the paired submission queue's head as it was on entry; some branches
post no completion at all. -/
theorem process_postedSQHDs (env : Env) (st : CtrlState) (sq cq psq : Queue)
    (hcq : getMappedQueue st.validCompletionQueues sq = some cq)
    (hpsq : getMappedQueue st.validSubmissionQueues cq = some psq) :
    postedSQHDs (processCommandAndPostCompletion env st sq).2 = [psq.head] ∨
    postedSQHDs (processCommandAndPostCompletion env st sq).2 = [] := by
  by_cases hval : (isValidCommandIdentifier st.sqidToCids
      (env.cmdMem sq.memoryAddress sq.head).CID sq.queueId).1 = false
  · left
    simp only [processCommandAndPostCompletion, hcq]
    rw [if_pos hval]
    exact postedSQHDs_postCompletion _ cq _ _ psq hpsq
  · by_cases hmps : env.memoryPageSize = 0
    · right
      simp only [processCommandAndPostCompletion, hcq]
      rw [if_neg hval, if_pos hmps]
      rfl
    · by_cases hadmin : sq.queueId = ADMIN_QUEUE_ID
      · by_cases hop1 : (env.cmdMem sq.memoryAddress sq.head).OPC = OPCODE_IDENTIFY
        · left
          simp only [processCommandAndPostCompletion, hcq]
          rw [if_neg hval, if_neg hmps, if_pos hadmin, if_pos hop1]
          dsimp only
          rw [postedSQHDs_cons_prp]
          exact postedSQHDs_postCompletion _ cq _ _ psq hpsq
        · by_cases hop2 : (env.cmdMem sq.memoryAddress sq.head).OPC = OPCODE_KEEP_ALIVE
          · left
            simp only [processCommandAndPostCompletion, hcq]
            rw [if_neg hval, if_neg hmps, if_pos hadmin, if_neg hop1, if_pos hop2]
            exact postedSQHDs_postCompletion _ cq _ _ psq hpsq
          · left
            simp only [processCommandAndPostCompletion, hcq]
            rw [if_neg hval, if_neg hmps, if_pos hadmin, if_neg hop1, if_neg hop2]
            dsimp only
            rw [postedSQHDs_cons_assert]
            exact postedSQHDs_postCompletion _ cq _ _ psq hpsq
      · right
        simp only [processCommandAndPostCompletion, hcq]
        rw [if_neg hval, if_neg hmps, if_neg hadmin]
        rfl

/-- C3 (amended): the SQHD field of every completion posted for a command
equals the submission queue's head pointer at the moment
`processCommandAndPostCompletion` runs — i.e. the pre-advance head that
indexes the command being consumed, since `checkForChanges` advances the
head only after this call returns.  In particular, the first command
consumed from a fresh admin SQ (head 0, tail 1) yields a completion with
SQHD = 0, not 1. -/
theorem C3_sqhd (env : Env) (st : CtrlState) (sq cq : Queue)
    (hcq : getMappedQueue st.validCompletionQueues sq = some cq)
    (hsq : getMappedQueue st.validSubmissionQueues cq = some sq) :
    postedSQHDs (processCommandAndPostCompletion env st sq).2 =
      List.replicate (postedSQHDs (processCommandAndPostCompletion env st sq).2).length
        sq.head := by
  rcases process_postedSQHDs env st sq cq sq hcq hsq with h | h <;> rw [h] <;> rfl

/-- The bring-up environment of spec §8 scenario 2: RDY=1, ASQB=0x1000,
ACQB=0x2000, a single Identify command with CID 1 at slot 0, SQ tail
doorbell 1. -/
def envC3 : Env :=
  { RDY := 1, ASQB := 0x1000, ACQB := 0x2000, ASQS := 15, ACQS := 15,
    memoryPageSize := 4096, dbSQT := fun _ => 1,
    cmdMem := fun _ _ => { OPC := 0x06, CID := 1, DPTR1 := 0x10000, DPTR2 := 0 } }

/-- C3 counterexample: running the literal spec scenario (first command
consumed from the fresh admin SQ, head 0, tail 1), exactly one completion is
posted and it carries SQHD = 0, not SQHD = 1 as the claim states. -/
theorem C3_counterexample :
    postedSQHDs (checkForChanges envC3 {}).2 = [0] ∧ (0 : Nat) ≠ 1 := by
  decide

/-- C3 witness: a Keep Alive command processed on a materialized admin pair
whose SQ head is 0. -/
theorem C3_witness :
    postedSQHDs (processCommandAndPostCompletion envC2
      { validSubmissionQueues :=
          [{ slotCount := 16, queueId := 0, memoryAddress := 0x1000, head := 0, tail := 1,
             mappedQueueId := some 0 }]
        validCompletionQueues :=
          [{ slotCount := 16, queueId := 0, memoryAddress := 0x2000, head := 0, tail := 1,
             mappedQueueId := some 0 }] }
      { slotCount := 16, queueId := 0, memoryAddress := 0x1000, head := 0, tail := 1,
        mappedQueueId := some 0 }).2 =
    List.replicate (postedSQHDs (processCommandAndPostCompletion envC2
      { validSubmissionQueues :=
          [{ slotCount := 16, queueId := 0, memoryAddress := 0x1000, head := 0, tail := 1,
             mappedQueueId := some 0 }]
        validCompletionQueues :=
          [{ slotCount := 16, queueId := 0, memoryAddress := 0x2000, head := 0, tail := 1,
             mappedQueueId := some 0 }] }
      { slotCount := 16, queueId := 0, memoryAddress := 0x1000, head := 0, tail := 1,
        mappedQueueId := some 0 }).2).length 0 :=
  C3_sqhd envC2
    { validSubmissionQueues :=
        [{ slotCount := 16, queueId := 0, memoryAddress := 0x1000, head := 0, tail := 1,
           mappedQueueId := some 0 }]
      validCompletionQueues :=
        [{ slotCount := 16, queueId := 0, memoryAddress := 0x2000, head := 0, tail := 1,
           mappedQueueId := some 0 }] }
    { slotCount := 16, queueId := 0, memoryAddress := 0x1000, head := 0, tail := 1,
      mappedQueueId := some 0 }
    { slotCount := 16, queueId := 0, memoryAddress := 0x2000, head := 0, tail := 1,
      mappedQueueId := some 0 }
    rfl rfl

/-! ## C4: a submission queue with no paired completion queue -/

/-- Draining an unpaired SQ: every iteration only logs; the engine state is
untouched apart from the SQ's own head, which the loop still advances. -/
theorem drainN_unmapped (env : Env) :
    ∀ (n : Nat) (st : CtrlState) (sq : Queue),
      sq.mappedQueueId = none → sq.head < sq.slotCount → sq.tail < sq.slotCount →
      ringDistance sq.head sq.tail sq.slotCount ≤ n →
      (drainN env n st sq).1.validCompletionQueues = st.validCompletionQueues ∧
      (drainN env n st sq).1.sqidToCids = st.sqidToCids ∧
      (drainN env n st sq).1.queueToPhaseTag = st.queueToPhaseTag ∧
      (drainN env n st sq).2.2 =
        List.replicate (ringDistance sq.head sq.tail sq.slotCount)
          (Effect.logNoMappedCompletionQueue sq.queueId) := by
  intro n
  induction n with
  | zero =>
      intro st sq hmap hh ht hle
      have h0 : ringDistance sq.head sq.tail sq.slotCount = 0 := by omega
      simp [drainN, h0]
  | succ n ih =>
      intro st sq hmap hh ht hle
      by_cases he : sq.head = sq.tail
      · simp [drainN, he, ringDistance, Nat.add_sub_cancel_left]
      · have hsc : 0 < sq.slotCount := by omega
        have hstep : processCommandAndPostCompletion env st sq =
            (st, [Effect.logNoMappedCompletionQueue sq.queueId]) := by
          simp [processCommandAndPostCompletion, getMappedQueue, hmap]
        have hm : (incrementAndGetHeadCloserToTail sq).mappedQueueId = none := by
          simp [incrementAndGetHeadCloserToTail, he, hmap]
        have hhd : (incrementAndGetHeadCloserToTail sq).head = (sq.head + 1) % sq.slotCount := by
          simp [incrementAndGetHeadCloserToTail, he]
        have htl : (incrementAndGetHeadCloserToTail sq).tail = sq.tail := by
          simp [incrementAndGetHeadCloserToTail, he]
        have hsc2 : (incrementAndGetHeadCloserToTail sq).slotCount = sq.slotCount := by
          simp [incrementAndGetHeadCloserToTail, he]
        have hqid : (incrementAndGetHeadCloserToTail sq).queueId = sq.queueId := by
          simp [incrementAndGetHeadCloserToTail, he]
        have hdsucc := ringDistance_succ hh ht he
        obtain ⟨h1, h2, h3, h4⟩ := ih (writebackSQ st (incrementAndGetHeadCloserToTail sq))
          (incrementAndGetHeadCloserToTail sq) hm
          (by rw [hhd, hsc2]; exact Nat.mod_lt _ hsc)
          (by rw [htl, hsc2]; exact ht)
          (by rw [hhd, htl, hsc2]; omega)
        rw [hhd, htl, hsc2, hqid] at h4
        refine ⟨?_, ?_, ?_, ?_⟩
        · simp only [drainN, if_neg he, hstep]
          exact h1
        · simp only [drainN, if_neg he, hstep]
          exact h2
        · simp only [drainN, if_neg he, hstep]
          exact h3
        · simp only [drainN, if_neg he, hstep]
          rw [h4, hdsucc, List.replicate_succ]
          rfl

/-- C4 (amended): when a submission queue has no paired completion queue,
each pending command only produces the error log — nothing is executed, no
completion is posted, and no engine state changes — but the drain loop
nevertheless advances the SQ head past every pending command (up to the
tail), contrary to the claim's "do not advance head". -/
theorem C4_unpaired_sq (env : Env) (st : CtrlState) (sq : Queue)
    (hmap : sq.mappedQueueId = none)
    (hh : sq.head < sq.slotCount) (ht : sq.tail < sq.slotCount) :
    (drainLoop env st sq).2.1 = { sq with head := sq.tail } ∧
    (drainLoop env st sq).1.validCompletionQueues = st.validCompletionQueues ∧
    (drainLoop env st sq).1.sqidToCids = st.sqidToCids ∧
    (drainLoop env st sq).1.queueToPhaseTag = st.queueToPhaseTag ∧
    (drainLoop env st sq).2.2 =
      List.replicate (ringDistance sq.head sq.tail sq.slotCount)
        (Effect.logNoMappedCompletionQueue sq.queueId) ∧
    (sq.head ≠ sq.tail →
      Effect.logNoMappedCompletionQueue sq.queueId ∈ (drainLoop env st sq).2.2 ∧
      hasPostCqe (drainLoop env st sq).2.2 = false ∧
      hasPrpWrite (drainLoop env st sq).2.2 = false) := by
  obtain ⟨h1, h2, h3, h4⟩ := drainN_unmapped env _ st sq hmap hh ht (Nat.le_refl _)
  refine ⟨drainLoop_queue env st sq hh ht, h1, h2, h3, h4, ?_⟩
  intro hne
  have hd : ringDistance sq.head sq.tail sq.slotCount ≠ 0 := by
    intro h0
    exact hne ((ringDistance_eq_zero hh ht).mp h0)
  rw [show (drainLoop env st sq).2.2 = (drainN env
      (ringDistance sq.head sq.tail sq.slotCount) st sq).2.2 from rfl, h4]
  refine ⟨List.mem_replicate.mpr ⟨hd, rfl⟩, ?_, ?_⟩
  · simp only [hasPostCqe, List.any_eq_false]
    intro x hx
    rw [List.eq_of_mem_replicate hx]
    simp
  · simp only [hasPrpWrite, List.any_eq_false]
    intro x hx
    rw [List.eq_of_mem_replicate hx]
    simp

/-- An unpaired I/O submission queue holding one pending command. -/
def sqC4 : Queue :=
  { slotCount := 4, queueId := 1, memoryAddress := 0x5000, head := 0, tail := 1 }

/-- C4 counterexample: draining the unpaired SQ advances its head from 0 to
1 (the claim says the head is not advanced), while only logging. -/
theorem C4_counterexample :
    ((drainLoop envC2 {} sqC4).2.1).head = 1 ∧ (1 : Nat) ≠ 0 ∧
    (drainLoop envC2 {} sqC4).2.2 = [Effect.logNoMappedCompletionQueue 1] := by
  decide

/-- C4 witness. -/
theorem C4_witness :
    (drainLoop envC2 {} sqC4).2.1 =
      { slotCount := 4, queueId := 1, memoryAddress := 0x5000, head := 1, tail := 1,
        mappedQueueId := none } ∧
    Effect.logNoMappedCompletionQueue 1 ∈ (drainLoop envC2 {} sqC4).2.2 ∧
    hasPostCqe (drainLoop envC2 {} sqC4).2.2 = false := by
  have h := C4_unpaired_sq envC2 {} sqC4 rfl (by decide) (by decide)
  exact ⟨h.1, (h.2.2.2.2.2 (by decide)).1, (h.2.2.2.2.2 (by decide)).2.1⟩

/-! ## C5: memory page size reads as zero mid-drain -/

/-- C5 (amended): when the memory page size reads as zero (and the command's
CID validates), `processCommandAndPostCompletion` logs and skips execution
and completion of *that command only* — the CID map still records the
command that was read — and the drain loop is not aborted: it advances the
head and keeps consuming commands until head = tail. -/
theorem C5_pagesize_zero (env : Env) (st : CtrlState) (sq cq : Queue)
    (hcq : getMappedQueue st.validCompletionQueues sq = some cq)
    (hz : env.memoryPageSize = 0)
    (hvalid : (isValidCommandIdentifier st.sqidToCids
      (env.cmdMem sq.memoryAddress sq.head).CID sq.queueId).1 = true) :
    processCommandAndPostCompletion env st sq =
      ({ st with sqidToCids := (isValidCommandIdentifier st.sqidToCids
          (env.cmdMem sq.memoryAddress sq.head).CID sq.queueId).2 },
       [Effect.logMemoryPageSizeZero]) ∧
    (sq.head < sq.slotCount → sq.tail < sq.slotCount →
      (drainLoop env st sq).2.1 = { sq with head := sq.tail }) := by
  constructor
  · have hval' : ¬(isValidCommandIdentifier st.sqidToCids
        (env.cmdMem sq.memoryAddress sq.head).CID sq.queueId).1 = false := by
      rw [hvalid]
      simp
    simp only [processCommandAndPostCompletion, hcq]
    rw [if_neg hval', if_pos hz]
  · intro hh ht
    exact drainLoop_queue env st sq hh ht

/-- The C5 scenario: memory page size 0, two pending Keep Alive commands
with CIDs 1 and 2 on the materialized admin pair. -/
def envC5 : Env :=
  { RDY := 1, ASQB := 0x1000, ACQB := 0x2000, ASQS := 15, ACQS := 15,
    memoryPageSize := 0, dbSQT := fun _ => 2,
    cmdMem := fun _ i => { OPC := 0x18, CID := i + 1, DPTR1 := 0, DPTR2 := 0 } }

/-- The admin SQ of the C5 scenario, tail already accepted at 2. -/
def sqC5 : Queue :=
  { slotCount := 16, queueId := 0, memoryAddress := 0x1000, head := 0, tail := 2,
    mappedQueueId := some 0 }

/-- The engine state of the C5 scenario. -/
def stC5 : CtrlState :=
  { validSubmissionQueues := [sqC5]
    validCompletionQueues :=
      [{ slotCount := 16, queueId := 0, memoryAddress := 0x2000, head := 0, tail := 2,
         mappedQueueId := some 0 }] }

/-- C5 counterexample: with the page size zero for the whole tick, the drain
is *not* aborted after the first command: the condition is logged twice
(once per command) and the second command is read — its CID 2 lands in the
outstanding-CID set, whose cardinality reaches 2. -/
theorem C5_counterexample :
    (drainLoop envC5 stC5 sqC5).2.2 =
      [Effect.logMemoryPageSizeZero, Effect.logMemoryPageSizeZero] ∧
    ((mapLookup (drainLoop envC5 stC5 sqC5).1.sqidToCids 0).getD ∅).card = 2 ∧
    2 ∈ (mapLookup (drainLoop envC5 stC5 sqC5).1.sqidToCids 0).getD ∅ ∧
    ((drainLoop envC5 stC5 sqC5).2.1).head = 2 := by
  decide

/-- C5 witness. -/
theorem C5_witness :
    processCommandAndPostCompletion envC5 stC5 sqC5 =
      ({ stC5 with sqidToCids := (isValidCommandIdentifier stC5.sqidToCids
          (envC5.cmdMem sqC5.memoryAddress sqC5.head).CID sqC5.queueId).2 },
       [Effect.logMemoryPageSizeZero]) ∧
    ((drainLoop envC5 stC5 sqC5).2.1 = { sqC5 with head := sqC5.tail }) := by
  have h := C5_pagesize_zero envC5 stC5 sqC5
    { slotCount := 16, queueId := 0, memoryAddress := 0x2000, head := 0, tail := 2,
      mappedQueueId := some 0 }
    rfl rfl (by decide)
  exact ⟨h.1, h.2 (by decide) (by decide)⟩

/-! ## C6: CID-conflict handling -/

/-- C6: when CID validation fails, exactly one completion is posted and it
carries SC = Command ID Conflict, DNR = 1 and the command's CID; the command
body is not executed (no PRP access, no opcode dispatch — in particular no
assertion from the dispatch skeleton fires); and the drain loop advances
the SQ head past the command. -/
theorem C6_cid_conflict (env : Env) (st : CtrlState) (sq cq psq : Queue)
    (hcq : getMappedQueue st.validCompletionQueues sq = some cq)
    (hpsq : getMappedQueue st.validSubmissionQueues cq = some psq)
    (hinvalid : (isValidCommandIdentifier st.sqidToCids
      (env.cmdMem sq.memoryAddress sq.head).CID sq.queueId).1 = false)
    (hhd : cq.head < cq.slotCount) :
    (postedEntries (processCommandAndPostCompletion env st sq).2).map
        (fun e => (e.SC, e.DNR, e.CID)) =
      [(COMMAND_ID_CONFLICT, true, (env.cmdMem sq.memoryAddress sq.head).CID)] ∧
    hasPrpWrite (processCommandAndPostCompletion env st sq).2 = false ∧
    Effect.assertFailed ∉ (processCommandAndPostCompletion env st sq).2 ∧
    (sq.head ≠ sq.tail →
      ((drainN env 1 st sq).2.1).head = (sq.head + 1) % sq.slotCount ∧
      (drainN env 1 st sq).2.2 = (processCommandAndPostCompletion env st sq).2) := by
  have hproc : processCommandAndPostCompletion env st sq =
      postCompletion
        { st with sqidToCids := (isValidCommandIdentifier st.sqidToCids
            (env.cmdMem sq.memoryAddress sq.head).CID sq.queueId).2 }
        cq { zeroCQE with SC := COMMAND_ID_CONFLICT, DNR := true }
        (env.cmdMem sq.memoryAddress sq.head) := by
    simp only [processCommandAndPostCompletion, hcq]
    rw [if_pos hinvalid]
  obtain ⟨-, -, -, -, hpost, hprp, hassert⟩ := postCompletion_spec
    { st with sqidToCids := (isValidCommandIdentifier st.sqidToCids
        (env.cmdMem sq.memoryAddress sq.head).CID sq.queueId).2 }
    cq { zeroCQE with SC := COMMAND_ID_CONFLICT, DNR := true }
    (env.cmdMem sq.memoryAddress sq.head) psq hpsq
  refine ⟨?_, ?_, ?_, ?_⟩
  · rw [hproc, hpost]
    rfl
  · rw [hproc]
    exact hprp
  · rw [hproc]
    exact hassert hhd
  · intro hne
    constructor
    · simp [drainN, if_neg hne, incrementAndGetHeadCloserToTail, hne]
    · simp [drainN, if_neg hne]

/-- The C6 scenario: CID 1 already outstanding on the admin SQ, and the
incoming Keep Alive command re-uses CID 1. -/
def stC6 : CtrlState :=
  { validSubmissionQueues :=
      [{ slotCount := 16, queueId := 0, memoryAddress := 0x1000, head := 0, tail := 1,
         mappedQueueId := some 0 }]
    validCompletionQueues :=
      [{ slotCount := 16, queueId := 0, memoryAddress := 0x2000, head := 0, tail := 1,
         mappedQueueId := some 0 }]
    sqidToCids := [(0, {1})] }

/-- The C6 environment: a Keep Alive command with the conflicting CID 1. -/
def envC6 : Env :=
  { RDY := 1, ASQB := 0x1000, ACQB := 0x2000, ASQS := 15, ACQS := 15,
    memoryPageSize := 4096, dbSQT := fun _ => 1,
    cmdMem := fun _ _ => { OPC := 0x18, CID := 1, DPTR1 := 0, DPTR2 := 0 } }

/-- C6 witness. -/
theorem C6_witness :
    (postedEntries (processCommandAndPostCompletion envC6 stC6
        { slotCount := 16, queueId := 0, memoryAddress := 0x1000, head := 0, tail := 1,
          mappedQueueId := some 0 }).2).map (fun e => (e.SC, e.DNR, e.CID)) =
      [(COMMAND_ID_CONFLICT, true, 1)] ∧
    hasPrpWrite (processCommandAndPostCompletion envC6 stC6
        { slotCount := 16, queueId := 0, memoryAddress := 0x1000, head := 0, tail := 1,
          mappedQueueId := some 0 }).2 = false := by
  have h := C6_cid_conflict envC6 stC6
    { slotCount := 16, queueId := 0, memoryAddress := 0x1000, head := 0, tail := 1,
      mappedQueueId := some 0 }
    { slotCount := 16, queueId := 0, memoryAddress := 0x2000, head := 0, tail := 1,
      mappedQueueId := some 0 }
    { slotCount := 16, queueId := 0, memoryAddress := 0x1000, head := 0, tail := 1,
      mappedQueueId := some 0 }
    rfl rfl (by decide) (by decide)
  exact ⟨h.1, h.2.1⟩

/-! ## C7: phase-tag management -/

/-- One step of `postN` when the queue lookup succeeds. -/
theorem postN_succ (cqId : Nat) (cmd : NVME_COMMAND) (k : Nat) (st : CtrlState) (cq : Queue)
    (hcq : getQueueWithId st.validCompletionQueues cqId = some cq) :
    postN cqId cmd (k + 1) st =
      ((postN cqId cmd k (postCompletion st cq zeroCQE cmd).1).1,
       (postCompletion st cq zeroCQE cmd).2 ++
         (postN cqId cmd k (postCompletion st cq zeroCQE cmd).1).2) := by
  simp only [postN, hcq]

/-- Posting `k` completions to a CQ whose head starts at `h ≥ 1` and stays
within the ring (no wrap to slot 0 among the posts): the stored phase tag
never toggles and every posted entry carries the same stored tag value. -/
theorem postN_between_wraps (cmd : NVME_COMMAND) (psq : Queue) :
    ∀ (k : Nat) (st : CtrlState) (cq : Queue),
      getQueueWithId st.validCompletionQueues cq.queueId = some cq →
      getMappedQueue st.validSubmissionQueues cq = some psq →
      1 ≤ cq.head → cq.tail = 0 → cq.head + k ≤ cq.slotCount →
      (postedEntries (postN cq.queueId cmd k st).2).map (fun e => e.P) =
        List.replicate k ((mapLookup st.queueToPhaseTag psq.queueId).getD false) ∧
      (mapLookup (postN cq.queueId cmd k st).1.queueToPhaseTag psq.queueId).getD false =
        (mapLookup st.queueToPhaseTag psq.queueId).getD false := by
  intro k
  induction k with
  | zero =>
      intro st cq hcq hpsq hh htl hcnt
      simp [postN, postedEntries]
  | succ k ih =>
      intro st cq hcq hpsq hh htl hcnt
      have hne0 : cq.head ≠ 0 := by omega
      have hinc_ne : cq.head ≠ cq.tail := by omega
      obtain ⟨hSQs, hcids, hCQs, hpt, hpost, hprp, hassert⟩ :=
        postCompletion_spec st cq zeroCQE cmd psq hpsq
      have hphase : postPhase st cq psq.queueId =
          (mapLookup st.queueToPhaseTag psq.queueId).getD false := by
        simp [postPhase, hne0]
      have hqid : (incrementAndGetHeadCloserToTail cq).queueId = cq.queueId := by
        simp [incrementAndGetHeadCloserToTail, hinc_ne]
      have htl' : (incrementAndGetHeadCloserToTail cq).tail = cq.tail := by
        simp [incrementAndGetHeadCloserToTail, hinc_ne]
      have hsc' : (incrementAndGetHeadCloserToTail cq).slotCount = cq.slotCount := by
        simp [incrementAndGetHeadCloserToTail, hinc_ne]
      have hmid : (incrementAndGetHeadCloserToTail cq).mappedQueueId = cq.mappedQueueId := by
        simp [incrementAndGetHeadCloserToTail, hinc_ne]
      have hhd' : (incrementAndGetHeadCloserToTail cq).head = (cq.head + 1) % cq.slotCount := by
        simp [incrementAndGetHeadCloserToTail, hinc_ne]
      have hlk1 : getQueueWithId (postCompletion st cq zeroCQE cmd).1.validCompletionQueues
          (incrementAndGetHeadCloserToTail cq).queueId =
          some (incrementAndGetHeadCloserToTail cq) := by
        have hbase : getQueueWithId st.validCompletionQueues
            (incrementAndGetHeadCloserToTail cq).queueId = some cq := by
          rw [hqid]
          exact hcq
        rw [hCQs]
        exact getQueueWithId_update hbase
      have hpsq1 : getMappedQueue (postCompletion st cq zeroCQE cmd).1.validSubmissionQueues
          (incrementAndGetHeadCloserToTail cq) = some psq := by
        simp only [getMappedQueue, hmid, hSQs]
        simpa [getMappedQueue] using hpsq
      have hpt1 : (mapLookup (postCompletion st cq zeroCQE cmd).1.queueToPhaseTag
          psq.queueId).getD false =
          (mapLookup st.queueToPhaseTag psq.queueId).getD false := by
        rw [hpt]
        simp [hphase]
      cases k with
      | zero =>
          constructor
          · rw [postN_succ cq.queueId cmd 0 st cq hcq]
            dsimp only
            rw [show postN cq.queueId cmd 0 (postCompletion st cq zeroCQE cmd).1 =
              ((postCompletion st cq zeroCQE cmd).1, ([] : List Effect)) from rfl]
            dsimp only
            rw [List.append_nil, hpost, hphase]
            rfl
          · rw [postN_succ cq.queueId cmd 0 st cq hcq]
            dsimp only
            rw [show postN cq.queueId cmd 0 (postCompletion st cq zeroCQE cmd).1 =
              ((postCompletion st cq zeroCQE cmd).1, ([] : List Effect)) from rfl]
            exact hpt1
      | succ j =>
          have hlt : cq.head + 1 < cq.slotCount := by omega
          have hh1 : 1 ≤ (incrementAndGetHeadCloserToTail cq).head := by
            rw [hhd', Nat.mod_eq_of_lt hlt]
            omega
          have htl1 : (incrementAndGetHeadCloserToTail cq).tail = 0 := by
            rw [htl', htl]
          have hcnt1 : (incrementAndGetHeadCloserToTail cq).head + (j + 1) ≤
              (incrementAndGetHeadCloserToTail cq).slotCount := by
            rw [hhd', Nat.mod_eq_of_lt hlt, hsc']
            omega
          obtain ⟨ihP, ihT⟩ := ih (postCompletion st cq zeroCQE cmd).1
            (incrementAndGetHeadCloserToTail cq) hlk1 hpsq1 hh1 htl1 hcnt1
          rw [hqid] at ihP ihT
          constructor
          · rw [postN_succ cq.queueId cmd (j + 1) st cq hcq]
            dsimp only
            rw [postedEntries_append, List.map_append, hpost, ihP, hpt1, hphase]
            rfl
          · rw [postN_succ cq.queueId cmd (j + 1) st cq hcq]
            dsimp only
            rw [ihT, hpt1]

/-- C7: for every completion post, the stored phase tag for the paired SQ's
id (defaulting to false when absent) is toggled exactly when the CQ head is
0 at post time, and the posted entry's P bit equals the post-toggle stored
value; consequently all entries posted between wraps (no head-0 crossing)
carry the same P value and the tag is unchanged across them, and the very
first completion posted to a fresh CQ (head 0, no stored tag) carries
P = 1. -/
theorem C7_phase_tag :
    (∀ (st : CtrlState) (cq : Queue) (entry : COMPLETION_QUEUE_ENTRY) (cmd : NVME_COMMAND)
        (psq : Queue), getMappedQueue st.validSubmissionQueues cq = some psq →
      mapLookup (postCompletion st cq entry cmd).1.queueToPhaseTag psq.queueId =
        some (postPhase st cq psq.queueId) ∧
      (postedEntries (postCompletion st cq entry cmd).2).map (fun e => e.P) =
        [postPhase st cq psq.queueId] ∧
      (cq.head ≠ 0 → postPhase st cq psq.queueId =
        (mapLookup st.queueToPhaseTag psq.queueId).getD false) ∧
      (cq.head = 0 → postPhase st cq psq.queueId =
        !((mapLookup st.queueToPhaseTag psq.queueId).getD false)) ∧
      (cq.head = 0 → mapLookup st.queueToPhaseTag psq.queueId = none →
        (postedEntries (postCompletion st cq entry cmd).2).map (fun e => e.P) = [true])) ∧
    (∀ (cmd : NVME_COMMAND) (psq : Queue) (k : Nat) (st : CtrlState) (cq : Queue),
      getQueueWithId st.validCompletionQueues cq.queueId = some cq →
      getMappedQueue st.validSubmissionQueues cq = some psq →
      1 ≤ cq.head → cq.tail = 0 → cq.head + k ≤ cq.slotCount →
      (postedEntries (postN cq.queueId cmd k st).2).map (fun e => e.P) =
        List.replicate k ((mapLookup st.queueToPhaseTag psq.queueId).getD false)) := by
  constructor
  · intro st cq entry cmd psq hpsq
    obtain ⟨-, -, -, hpt, hpost, -, -⟩ := postCompletion_spec st cq entry cmd psq hpsq
    refine ⟨hpt, ?_, ?_, ?_, ?_⟩
    · rw [hpost]
      rfl
    · intro hz
      simp [postPhase, hz]
    · intro hz
      simp [postPhase, hz]
    · intro hz hnone
      rw [hpost]
      simp [postPhase, hz, hnone]
  · intro cmd psq k st cq h1 h2 h3 h4 h5
    exact (postN_between_wraps cmd psq k st cq h1 h2 h3 h4 h5).1

/-- A Keep Alive command used in the C7 witness scenarios. -/
def cmdC7 : NVME_COMMAND := { OPC := 0x18, CID := 7, DPTR1 := 0, DPTR2 := 0 }

/-- The admin SQ of the C7 witness. -/
def sqC7 : Queue :=
  { slotCount := 4, queueId := 0, memoryAddress := 0x1000, head := 0, tail := 2,
    mappedQueueId := some 0 }

/-- A fresh admin CQ (head 0, no stored phase tag). -/
def cqC7 : Queue :=
  { slotCount := 4, queueId := 0, memoryAddress := 0x2000, head := 0, tail := 2,
    mappedQueueId := some 0 }

/-- The C7 single-post witness state. -/
def stC7 : CtrlState :=
  { validSubmissionQueues := [sqC7], validCompletionQueues := [cqC7] }

/-- A mid-ring admin CQ (head 1, tail 0): two further posts stay between
wraps. -/
def cqC7b : Queue :=
  { slotCount := 4, queueId := 0, memoryAddress := 0x2000, head := 1, tail := 0,
    mappedQueueId := some 0 }

/-- The C7 between-wraps witness state. -/
def stC7b : CtrlState :=
  { validSubmissionQueues := [sqC7], validCompletionQueues := [cqC7b] }

/-- C7 witness: the first completion on a fresh CQ carries P = 1, and two
posts strictly between wraps both carry the stored (false) tag. -/
theorem C7_witness :
    (postedEntries (postCompletion stC7 cqC7 zeroCQE cmdC7).2).map (fun e => e.P) = [true] ∧
    (postedEntries (postN 0 cmdC7 2 stC7b).2).map (fun e => e.P) = List.replicate 2 false := by
  constructor
  · exact (C7_phase_tag.1 stC7 cqC7 zeroCQE cmdC7 sqC7 rfl).2.2.2.2 rfl rfl
  · exact C7_phase_tag.2 cmdC7 sqC7 2 stC7b cqC7b rfl rfl (by decide) rfl (by decide)

/-! ## C8 and C10: controller reset -/

theorem filter_admin_nil (l : List Queue) (h : ∀ q ∈ l, q.queueId ≠ ADMIN_QUEUE_ID) :
    l.filter (fun q => q.queueId == ADMIN_QUEUE_ID) = [] := by
  induction l with
  | nil => rfl
  | cons x xs ih =>
      have hx : (x.queueId == ADMIN_QUEUE_ID) = false := by
        simpa using h x (List.mem_cons_self x xs)
      rw [List.filter_cons, hx]
      simpa using ih (fun q hq => h q (List.mem_cons_of_mem x hq))

/-- C8: after reset both registries hold exactly the admin entry (given it
was materialized exactly once, with every other entry non-admin), every
surviving entry is the admin one, and the CID and phase-tag maps are
empty. -/
theorem C8_reset (st : CtrlState) (a b : Queue) (l1 l2 m1 m2 : List Queue)
    (hsq : st.validSubmissionQueues = l1 ++ a :: l2)
    (ha : a.queueId = ADMIN_QUEUE_ID)
    (hl1 : ∀ q ∈ l1, q.queueId ≠ ADMIN_QUEUE_ID)
    (hl2 : ∀ q ∈ l2, q.queueId ≠ ADMIN_QUEUE_ID)
    (hcq : st.validCompletionQueues = m1 ++ b :: m2)
    (hb : b.queueId = ADMIN_QUEUE_ID)
    (hm1 : ∀ q ∈ m1, q.queueId ≠ ADMIN_QUEUE_ID)
    (hm2 : ∀ q ∈ m2, q.queueId ≠ ADMIN_QUEUE_ID) :
    (controllerResetCallback st).validSubmissionQueues = [a] ∧
    (controllerResetCallback st).validCompletionQueues = [b] ∧
    (controllerResetCallback st).sqidToCids = [] ∧
    (controllerResetCallback st).queueToPhaseTag = [] ∧
    (controllerResetCallback st).validSubmissionQueues.all
      (fun q => q.queueId == ADMIN_QUEUE_ID) = true ∧
    (controllerResetCallback st).validCompletionQueues.all
      (fun q => q.queueId == ADMIN_QUEUE_ID) = true := by
  have e1 : (controllerResetCallback st).validSubmissionQueues = [a] := by
    simp only [controllerResetCallback]
    rw [hsq, List.filter_append, filter_admin_nil l1 hl1, List.filter_cons]
    simp [ha, filter_admin_nil l2 hl2]
  have e2 : (controllerResetCallback st).validCompletionQueues = [b] := by
    simp only [controllerResetCallback]
    rw [hcq, List.filter_append, filter_admin_nil m1 hm1, List.filter_cons]
    simp [hb, filter_admin_nil m2 hm2]
  refine ⟨e1, e2, rfl, rfl, ?_, ?_⟩
  · rw [e1]
    simp [ha]
  · rw [e2]
    simp [hb]

/-- The C8/C10 witness state: one I/O pair alongside the admin pair, with
outstanding CIDs and a phase tag recorded. -/
def stC8 : CtrlState :=
  { validSubmissionQueues :=
      [{ slotCount := 8, queueId := 1, memoryAddress := 0x7000, head := 2, tail := 2,
         mappedQueueId := some 1 },
       { slotCount := 16, queueId := 0, memoryAddress := 0x1000, head := 3, tail := 5,
         mappedQueueId := some 0 }]
    validCompletionQueues :=
      [{ slotCount := 16, queueId := 0, memoryAddress := 0x2000, head := 3, tail := 5,
         mappedQueueId := some 0 },
       { slotCount := 8, queueId := 1, memoryAddress := 0x8000, head := 2, tail := 2,
         mappedQueueId := some 1 }]
    sqidToCids := [(0, {1}), (1, {2})]
    queueToPhaseTag := [(0, true)] }

/-- C8 witness. -/
theorem C8_witness :
    (controllerResetCallback stC8).validSubmissionQueues =
      [{ slotCount := 16, queueId := 0, memoryAddress := 0x1000, head := 3, tail := 5,
         mappedQueueId := some 0 }] ∧
    (controllerResetCallback stC8).validCompletionQueues =
      [{ slotCount := 16, queueId := 0, memoryAddress := 0x2000, head := 3, tail := 5,
         mappedQueueId := some 0 }] ∧
    (controllerResetCallback stC8).sqidToCids = [] ∧
    (controllerResetCallback stC8).queueToPhaseTag = [] := by
  have h := C8_reset stC8
    { slotCount := 16, queueId := 0, memoryAddress := 0x1000, head := 3, tail := 5, mappedQueueId := some 0 }
    { slotCount := 16, queueId := 0, memoryAddress := 0x2000, head := 3, tail := 5, mappedQueueId := some 0 }
    [{ slotCount := 8, queueId := 1, memoryAddress := 0x7000, head := 2, tail := 2, mappedQueueId := some 1 }]
    []
    []
    [{ slotCount := 8, queueId := 1, memoryAddress := 0x8000, head := 2, tail := 2, mappedQueueId := some 1 }]
    rfl rfl (by decide) (by decide) rfl rfl (by decide) (by decide)
  exact ⟨h.1, h.2.1, h.2.2.1, h.2.2.2.1⟩

/-- C10: controller reset never touches the surviving admin Queue objects:
every admin entry of either registry survives with its head, tail, slot
count and memory address unchanged, and reset adds no entry that was not
already in the registry. -/
theorem C10_reset_preserves_admin (st : CtrlState) :
    (∀ q ∈ st.validSubmissionQueues, q.queueId = ADMIN_QUEUE_ID →
      ∃ q' ∈ (controllerResetCallback st).validSubmissionQueues,
        q'.head = q.head ∧ q'.tail = q.tail ∧ q'.slotCount = q.slotCount ∧
        q'.memoryAddress = q.memoryAddress) ∧
    (∀ q ∈ st.validCompletionQueues, q.queueId = ADMIN_QUEUE_ID →
      ∃ q' ∈ (controllerResetCallback st).validCompletionQueues,
        q'.head = q.head ∧ q'.tail = q.tail ∧ q'.slotCount = q.slotCount ∧
        q'.memoryAddress = q.memoryAddress) ∧
    (∀ q ∈ (controllerResetCallback st).validSubmissionQueues,
      q ∈ st.validSubmissionQueues) ∧
    (∀ q ∈ (controllerResetCallback st).validCompletionQueues,
      q ∈ st.validCompletionQueues) := by
  refine ⟨?_, ?_, ?_, ?_⟩
  · intro q hq hid
    exact ⟨q, List.mem_filter.mpr ⟨hq, by simp [hid]⟩, rfl, rfl, rfl, rfl⟩
  · intro q hq hid
    exact ⟨q, List.mem_filter.mpr ⟨hq, by simp [hid]⟩, rfl, rfl, rfl, rfl⟩
  · intro q hq
    exact (List.mem_filter.mp hq).1
  · intro q hq
    exact (List.mem_filter.mp hq).1

/-- C10 witness: the admin SQ of `stC8` (head 3, tail 5, 16 slots, base
0x1000) survives reset with all four attributes intact. -/
theorem C10_witness :
    ∃ q' ∈ (controllerResetCallback stC8).validSubmissionQueues,
      q'.head = 3 ∧ q'.tail = 5 ∧ q'.slotCount = 16 ∧ q'.memoryAddress = 0x1000 :=
  (C10_reset_preserves_admin stC8).1
    { slotCount := 16, queueId := 0, memoryAddress := 0x1000, head := 3, tail := 5,
      mappedQueueId := some 0 }
    (by decide) rfl

/-! ## C9: the readiness gate and the no-doorbell-change tick -/

theorem setMemoryAddress_self (q : Queue) :
    ({ q with memoryAddress := q.memoryAddress } : Queue) = q := by
  obtain ⟨a, b, c, d, e, f⟩ := q
  rfl

theorem materializeAdminSQ_noop (env : Env) (st : CtrlState) (asq : Queue)
    (hne : st.validSubmissionQueues ≠ [])
    (hq : getQueueWithId st.validSubmissionQueues ADMIN_QUEUE_ID = some asq)
    (haddr : asq.memoryAddress = env.ASQB) :
    materializeAdminSQ env st = (st, []) := by
  have hid : asq.queueId = ADMIN_QUEUE_ID := getQueueWithId_eq_id hq
  simp only [materializeAdminSQ, if_neg hne, hq]
  rw [← haddr, setMemoryAddress_self, writebackSQ,
    updateQueueWithId_self (by rw [hid]; exact hq)]

theorem materializeAdminCQ_noop (env : Env) (st : CtrlState) (acq : Queue)
    (hne : st.validCompletionQueues ≠ [])
    (hq : getQueueWithId st.validCompletionQueues ADMIN_QUEUE_ID = some acq)
    (haddr : acq.memoryAddress = env.ACQB) :
    materializeAdminCQ env st = (st, []) := by
  have hid : acq.queueId = ADMIN_QUEUE_ID := getQueueWithId_eq_id hq
  simp only [materializeAdminCQ, if_neg hne, hq]
  rw [← haddr, setMemoryAddress_self,
    updateQueueWithId_self (by rw [hid]; exact hq)]

theorem drainIdx_noop (env : Env) (st : CtrlState) (i : Nat)
    (h : ∀ q ∈ st.validSubmissionQueues, env.dbSQT q.queueId = q.tail) :
    drainIdx env st i = (st, []) := by
  cases hq : st.validSubmissionQueues[i]? with
  | none => simp [drainIdx, hq]
  | some q =>
      have hmem : q ∈ st.validSubmissionQueues := by
        have := List.getElem?_eq_some.mp hq
        obtain ⟨hlt, he⟩ := this
        exact he ▸ List.getElem_mem hlt
      simp [drainIdx, hq, h q hmem]

theorem foldl_drain_noop (env : Env) (st : CtrlState)
    (h : ∀ q ∈ st.validSubmissionQueues, env.dbSQT q.queueId = q.tail) :
    ∀ (L : List Nat) (effs : List Effect),
      L.foldl (fun acc i =>
        let step := drainIdx env acc.1 i
        (step.1, acc.2 ++ step.2)) (st, effs) = (st, effs) := by
  intro L
  induction L with
  | nil => intro effs; rfl
  | cons i L ih =>
      intro effs
      simp only [List.foldl_cons, drainIdx_noop env st i h]
      rw [List.append_nil]
      exact ih effs

theorem drainAll_noop (env : Env) (st : CtrlState)
    (h : ∀ q ∈ st.validSubmissionQueues, env.dbSQT q.queueId = q.tail) :
    drainAll env st = (st, []) := by
  rw [drainAll]
  exact foldl_drain_noop env st h (List.range st.validSubmissionQueues.length) []

/-- C9 (amended): `checkForChanges` returns immediately, mutating nothing,
when `CSTS.RDY = 0`; and it is a complete no-op whenever the admin queues
are already materialized with memory addresses equal to the current
ASQB/ACQB and no SQ tail doorbell differs from the corresponding internal
tail.  (Without the materialized-and-address-matching hypotheses the call
does mutate state: it materializes the admin queues or rebases them.) -/
theorem C9_no_doorbell_change (env : Env) (st : CtrlState) (asq acq : Queue) :
    (env.RDY = 0 → checkForChanges env st = (st, [])) ∧
    (st.validSubmissionQueues ≠ [] →
      getQueueWithId st.validSubmissionQueues ADMIN_QUEUE_ID = some asq →
      asq.memoryAddress = env.ASQB →
      st.validCompletionQueues ≠ [] →
      getQueueWithId st.validCompletionQueues ADMIN_QUEUE_ID = some acq →
      acq.memoryAddress = env.ACQB →
      (∀ q ∈ st.validSubmissionQueues, env.dbSQT q.queueId = q.tail) →
      checkForChanges env st = (st, [])) := by
  constructor
  · intro h
    simp [checkForChanges, h]
  · intro h1 h2 h3 h4 h5 h6 h7
    by_cases hrdy : env.RDY = 0
    · simp [checkForChanges, hrdy]
    · by_cases hasqb : env.ASQB = 0
      · simp [checkForChanges, hrdy, hasqb]
      · simp only [checkForChanges, if_neg hrdy, if_neg hasqb,
          materializeAdminSQ_noop env st asq h1 h2 h3]
        by_cases hacqb : env.ACQB = 0
        · simp [hacqb]
        · simp only [if_neg hacqb, materializeAdminCQ_noop env st acq h4 h5 h6,
            drainAll_noop env st h7]
          rfl

/-- A materialized admin pair at ASQB=0x1000, ACQB=0x2000, all cursors 0. -/
def stC9 : CtrlState :=
  { validSubmissionQueues :=
      [{ slotCount := 16, queueId := 0, memoryAddress := 0x1000, mappedQueueId := some 0 }]
    validCompletionQueues :=
      [{ slotCount := 16, queueId := 0, memoryAddress := 0x2000, mappedQueueId := some 0 }] }

/-- An environment in which the host has rebased ASQB to 0x3000 while no
doorbell moved. -/
def envC9 : Env :=
  { RDY := 1, ASQB := 0x3000, ACQB := 0x2000, ASQS := 15, ACQS := 15,
    memoryPageSize := 4096, dbSQT := fun _ => 0,
    cmdMem := fun _ _ => { OPC := 0, CID := 0, DPTR1 := 0, DPTR2 := 0 } }

/-- C9 counterexample: RDY=1 and every SQ tail doorbell equals the internal
tail, yet the call mutates the engine state (it rebases the admin SQ's
memory address to the new ASQB), so "no doorbell change implies no
mutation" fails as stated. -/
theorem C9_counterexample :
    stC9.validSubmissionQueues.all (fun q => envC9.dbSQT q.queueId == q.tail) = true ∧
    envC9.RDY = 1 ∧
    (checkForChanges envC9 stC9).1 ≠ stC9 := by
  decide

/-- The C9 witness environment: addresses match the materialized state and
no doorbell differs. -/
def envC9b : Env :=
  { RDY := 1, ASQB := 0x1000, ACQB := 0x2000, ASQS := 15, ACQS := 15,
    memoryPageSize := 4096, dbSQT := fun _ => 0,
    cmdMem := fun _ _ => { OPC := 0, CID := 0, DPTR1 := 0, DPTR2 := 0 } }

/-- C9 witness. -/
theorem C9_witness :
    checkForChanges envC9b stC9 = (stC9, []) ∧
    checkForChanges { envC9b with RDY := 0 } stC9 = (stC9, []) := by
  constructor
  · exact (C9_no_doorbell_change envC9b stC9
      { slotCount := 16, queueId := 0, memoryAddress := 0x1000, mappedQueueId := some 0 }
      { slotCount := 16, queueId := 0, memoryAddress := 0x2000, mappedQueueId := some 0 }).2
      (by decide) rfl rfl (by decide) rfl rfl (by decide)
  · exact (C9_no_doorbell_change { envC9b with RDY := 0 } stC9
      { slotCount := 16, queueId := 0, memoryAddress := 0x1000, mappedQueueId := some 0 }
      { slotCount := 16, queueId := 0, memoryAddress := 0x2000, mappedQueueId := some 0 }).1
      rfl
